import Mathlib

/-!
Verification of the copilot-code-analyzer detection/scoring engine.

The Python source computes, per file, a calibrated confidence score in ℚ
(Python floats carry exact decimal constants here; we embed the arithmetic
over ℚ), an estimated count of AI lines, and a discrete risk label.
Pattern matching (the `re` searches) enters the scoring pipeline only through
a handful of nonnegative match counts and normalized scores; the pipeline
from those numbers to the final result is embedded exactly, and the
string-level wrapper is parameterized by the score functions so that every
theorem quantifies over all possible pattern-match outcomes.

Sources embedded:
  src/analyzer/balanced_detector.py      (BalancedCopilotDetector)
  src/analyzer/realistic_detector.py     (RealisticCopilotDetector)
  src/analyzer/conservative_detector.py  (ConservativeCopilotDetector)
  src/analyzer/metrics_calculator.py     (MetricsCalculator)
-/

/-- Risk labels produced by the detectors.  `_calculate_balanced_risk`,
`_calculate_risk_level` and `_calculate_conservative_risk` return the strings
"MINIMAL" / "LOW" / "MEDIUM" / "HIGH" / "VERY HIGH"; we embed them as an
inductive type. -/
inductive RiskLevel
  | MINIMAL
  | LOW
  | MEDIUM
  | HIGH
  | VERY_HIGH
deriving DecidableEq, Repr

/-- Numeric rank of a risk label, in the documented order
MINIMAL < LOW < MEDIUM < HIGH < VERY HIGH. -/
def RiskLevel.rank : RiskLevel → ℕ
  | .MINIMAL => 0
  | .LOW => 1
  | .MEDIUM => 2
  | .HIGH => 3
  | .VERY_HIGH => 4

/-- The part of the result dictionary returned by `analyze_content` that the
claims are about: keys `confidence_score`, `estimated_lines`,
`total_analyzed_lines`, `risk_level`, `language`. -/
structure AnalysisResult where
  confidence_score : ℚ
  estimated_lines : ℤ
  total_analyzed_lines : ℕ
  risk_level : RiskLevel
  language : String
deriving DecidableEq, Repr

/-- `_create_empty_analysis` of the balanced detector (balanced_detector.py
lines 388-413): confidence 0, no estimated lines, 0 analyzed lines, MINIMAL
risk, language "unknown". -/
def emptyAnalysis : AnalysisResult :=
  { confidence_score := 0
    estimated_lines := 0
    total_analyzed_lines := 0
    risk_level := .MINIMAL
    language := "unknown" }

/-- `_detect_language` of balanced_detector.py (lines 369-386): extension →
language name, defaulting to "unknown".  The Python code lowercases the
extension first. -/
def detectLanguage (file_extension : String) : String :=
  let e := file_extension.toLower
  if e = ".py" then "python"
  else if e = ".js" then "javascript"
  else if e = ".ts" then "typescript"
  else if e = ".jsx" then "javascript"
  else if e = ".tsx" then "typescript"
  else if e = ".java" then "java"
  else if e = ".cpp" then "cpp"
  else if e = ".c" then "c"
  else if e = ".cs" then "csharp"
  else if e = ".php" then "php"
  else if e = ".rb" then "ruby"
  else if e = ".go" then "go"
  else if e = ".rs" then "rust"
  else "unknown"

/-- Characters removed by Python's `str.strip()` on ASCII text:
space, tab, newline, carriage return, vertical tab, form feed. -/
def isPythonSpace (c : Char) : Bool :=
  c = ' ' ∨ c = '\t' ∨ c = '\n' ∨ c = '\x0d' ∨ c = '\x0b' ∨ c = '\x0c'

/-- Python `str.strip()` on a list of characters: drop leading and trailing
whitespace. -/
def pythonStripList (cs : List Char) : List Char :=
  ((cs.dropWhile isPythonSpace).reverse.dropWhile isPythonSpace).reverse

/-- Python `str.strip()` on a string. -/
def pythonStrip (s : String) : String :=
  ⟨pythonStripList s.data⟩

/-- Python `content.split('\n')` on a list of characters: split at every
newline; the empty string splits to one empty piece, a trailing newline
yields a trailing empty piece. -/
def splitOnNewline : List Char → List (List Char)
  | [] => [[]]
  | '\n' :: cs => [] :: splitOnNewline cs
  | c :: cs =>
    match splitOnNewline cs with
    | [] => [[c]]
    | l :: ls => (c :: l) :: ls

/-- The non-blank lines of a file, as in balanced_detector.py line 122:
`[line for line in content.split('\n') if line.strip()]`. -/
def nonBlankLines (content : String) : List (List Char) :=
  (splitOnNewline content.data).filter (fun l => ¬ (pythonStripList l).isEmpty)

/-!
Section: Balanced detector (balanced_detector.py)

`analyze_content` computes five sub-scores from the text — each produced by
regex matching and normalization and, by construction in the source, a
nonnegative rational — then combines them with fixed weights
(`_initialize_weights`, lines 106-114), applies `_apply_realistic_thresholds`
(lines 263-285) and `_calculate_balanced_risk` (lines 287-297), and estimates
AI lines (line 157).  We embed the numeric pipeline exactly, taking the five
sub-scores and the non-blank line count as inputs.
-/

/-- The five sub-scores of `BalancedCopilotDetector.analyze_content`
(lines 129-133): strong/moderate/weak indicator scores, the consistency
score and the human-pattern score. -/
structure BalancedScores where
  strong : ℚ
  moderate : ℚ
  weak : ℚ
  consistency : ℚ
  human : ℚ
deriving DecidableEq, Repr

/-- Weighted base confidence (lines 136-141): weights 0.5, 0.3, 0.15, 0.05
from `_initialize_weights`. -/
def balancedBaseConfidence (s : BalancedScores) : ℚ :=
  s.strong * (1/2) + s.moderate * (3/10) + s.weak * (3/20) + s.consistency * (1/20)

/-- Human-pattern penalty (lines 143-146): only applied when the human score
exceeds 0.85, with weight -0.15. -/
def balancedHumanPenalty (s : BalancedScores) : ℚ :=
  if s.human > 17/20 then (s.human - 17/20) * (-(3/20)) else 0

/-- `final_confidence = max(0.0, base_confidence + human_penalty)`
(line 148), before `_apply_realistic_thresholds`. -/
def balancedPreThreshold (s : BalancedScores) : ℚ :=
  max 0 (balancedBaseConfidence s + balancedHumanPenalty s)

/-- Small-file dampening of `_apply_realistic_thresholds` (lines 266-270). -/
def balancedDampened (confidence : ℚ) (total_lines : ℕ) : ℚ :=
  if total_lines < 20 then confidence * (1/2)
  else if total_lines < 50 then confidence * (7/10)
  else confidence

/-- Mid-range scaling of `_apply_realistic_thresholds` (lines 272-275):
`if confidence > 0.25 and total_lines > 30: confidence = min(confidence * 0.75, 0.40)`. -/
def balancedScaled (confidence : ℚ) (total_lines : ℕ) : ℚ :=
  if confidence > 1/4 ∧ total_lines > 30 then min (confidence * (3/4)) (2/5)
  else confidence

/-- The confidence value reaching the noise-floor comparison of
`_apply_realistic_thresholds` (line 278), i.e. after dampening and scaling. -/
def balancedPreFloor (confidence : ℚ) (total_lines : ℕ) : ℚ :=
  balancedScaled (balancedDampened confidence total_lines) total_lines

/-- Noise floor (lines 277-279): `if confidence < 0.05: confidence = 0.0`. -/
def balancedFloored (confidence : ℚ) : ℚ :=
  if confidence < 1/20 then 0 else confidence

/-- High-end compression (lines 281-283):
`if confidence > 0.6: confidence = 0.6 + (confidence - 0.6) * 0.5`. -/
def balancedCompressed (confidence : ℚ) : ℚ :=
  if confidence > 3/5 then 3/5 + (confidence - 3/5) * (1/2) else confidence

/-- `_apply_realistic_thresholds` (lines 263-285): dampen, scale, floor,
compress, then `return min(max(confidence, 0.0), 0.75)`. -/
def balancedApplyRealisticThresholds (confidence : ℚ) (total_lines : ℕ) : ℚ :=
  min (max (balancedCompressed (balancedFloored (balancedPreFloor confidence total_lines))) 0) (3/4)

/-- `_calculate_balanced_risk` (lines 287-297), called with the final
confidence, the strong score and the moderate score (line 154). -/
def balancedRisk (confidence strong moderate : ℚ) : RiskLevel :=
  if strong > 1/2 ∨ confidence > 7/10 then .HIGH
  else if strong > 1/5 ∨ moderate > 1/2 ∨ confidence > 2/5 then .MEDIUM
  else if moderate > 1/5 ∨ confidence > 3/20 then .LOW
  else .MINIMAL

/-- The final calibrated confidence of the balanced detector (line 151). -/
def balancedFinalConfidence (s : BalancedScores) (total_lines : ℕ) : ℚ :=
  balancedApplyRealisticThresholds (balancedPreThreshold s) total_lines

/-- The numeric body of `BalancedCopilotDetector.analyze_content`
(lines 128-184) given the five sub-scores, the non-blank line count, and the
detected language.  `estimated_lines` is line 157:
`int(total_lines * final_confidence) if final_confidence > 0.05 else 0`;
Python `int()` on a nonnegative float truncates, i.e. takes the floor. -/
def balancedAnalyzeNum (s : BalancedScores) (total_lines : ℕ) (language : String) :
    AnalysisResult :=
  { confidence_score := balancedFinalConfidence s total_lines
    estimated_lines :=
      if balancedFinalConfidence s total_lines > 1/20 then
        ⌊(total_lines : ℚ) * balancedFinalConfidence s total_lines⌋
      else 0
    total_analyzed_lines := total_lines
    risk_level := balancedRisk (balancedFinalConfidence s total_lines) s.strong s.moderate
    language := language }

/-- The pattern-matching side of the balanced detector: one score function
per sub-score, each a function of the file content.  In the source these are
`_analyze_strong_indicators`, `_analyze_moderate_indicators`,
`_analyze_weak_indicators`, `_analyze_consistency` and
`_analyze_human_patterns` (regex match counting plus normalization); the
theorems below quantify over all possible such functions. -/
structure BalancedScorers where
  strong : String → ℚ
  moderate : String → ℚ
  weak : String → ℚ
  consistency : String → ℚ
  human : String → ℚ

/-- `BalancedCopilotDetector.analyze_content` (lines 116-184): empty or
whitespace-only content short-circuits to `_create_empty_analysis`
(lines 119-126) before any pattern matching runs; otherwise the non-blank
lines are counted and the numeric pipeline runs on the sub-scores.  Every
operation in the source body is total (all divisions are guarded), so the
embedding is a total function and the call cannot raise. -/
def balancedAnalyzeContent (F : BalancedScorers) (content : String)
    (file_extension : String) : AnalysisResult :=
  if (pythonStrip content).isEmpty then emptyAnalysis
  else if (nonBlankLines content).length = 0 then emptyAnalysis
  else
    balancedAnalyzeNum
      ⟨F.strong content, F.moderate content, F.weak content,
       F.consistency content, F.human content⟩
      (nonBlankLines content).length (detectLanguage file_extension)

/-- A concrete all-zero scorer family, used only in witnesses. -/
def zeroScorers : BalancedScorers :=
  ⟨fun _ => 0, fun _ => 0, fun _ => 0, fun _ => 0, fun _ => 0⟩

/-!
Section: Realistic detector (realistic_detector.py)

`analyze_content` (lines 50-100) counts explicit-marker regex matches and
subtle-pattern matches, combines them with weights 0.8 and 0.1
(`_initialize_weights`, lines 41-48), applies `_apply_realistic_thresholds`
(lines 123-144) and `_calculate_risk_level` (lines 146-155).  The embedding
takes the raw match counts and line counts as inputs; `markerCount` is the
total number of explicit-marker regex matches, `patternMatches` the total
number of subtle-pattern matches, `codeLines` the number of non-blank
non-comment lines, and `total_lines` the number of lines of
`content.split('\n')`.
-/

/-- `_analyze_explicit_markers` (lines 102-108):
`min(marker_count * 0.3, 1.0)`. -/
def realisticExplicitScore (markerCount : ℕ) : ℚ :=
  min ((markerCount : ℚ) * (3/10)) 1

/-- `_analyze_subtle_patterns` (lines 110-121): 0 for files with fewer than
10 code lines, otherwise `min(pattern_matches / (code_lines / 20), 0.5) * 0.2`. -/
def realisticSubtleScore (patternMatches codeLines : ℕ) : ℚ :=
  if codeLines < 10 then 0
  else (min ((patternMatches : ℚ) / ((codeLines : ℚ) / 20)) (1/2)) * (1/5)

/-- The weighted confidence of lines 60-72: subtle patterns are only
consulted when the explicit score is exactly 0
(`if explicit_score == 0`, line 65). -/
def realisticSubtleUsed (markerCount patternMatches codeLines : ℕ) : ℚ :=
  if realisticExplicitScore markerCount = 0 then
    realisticSubtleScore patternMatches codeLines
  else 0

/-- The weighted sum of line 69-72 itself. -/
def realisticRawConfidence (markerCount patternMatches codeLines : ℕ) : ℚ :=
  realisticExplicitScore markerCount * (4/5) +
    realisticSubtleUsed markerCount patternMatches codeLines * (1/10)

/-- The non-explicit branch of `_apply_realistic_thresholds`
(lines 130-138) before the noise floor: small-file dampening and the
8-percent cap. -/
def realisticDampened (confidence : ℚ) (total_lines : ℕ) : ℚ :=
  if total_lines < 30 then confidence * (3/10)
  else if total_lines < 100 then confidence * (1/2)
  else confidence

/-- The 8-percent cap of lines 136-138, applied to the dampened value. -/
def realisticScaled (confidence : ℚ) (total_lines : ℕ) : ℚ :=
  if realisticDampened confidence total_lines > 1/10 then
    min (realisticDampened confidence total_lines * (2/5)) (2/25)
  else realisticDampened confidence total_lines

/-- `_apply_realistic_thresholds` (lines 123-144): files with explicit
markers return `min(confidence, 0.95)` directly; otherwise the scaled value
is floored to 0 below 0.02. -/
def realisticApplyThresholds (confidence : ℚ) (total_lines : ℕ)
    (has_explicit : Prop) [Decidable has_explicit] : ℚ :=
  if has_explicit then min confidence (19/20)
  else if realisticScaled confidence total_lines < 1/50 then 0
  else realisticScaled confidence total_lines

/-- `_calculate_risk_level` (lines 146-155). -/
def realisticRisk (confidence : ℚ) (has_explicit : Prop) [Decidable has_explicit] :
    RiskLevel :=
  if has_explicit ∧ confidence > 7/10 then .VERY_HIGH
  else if confidence > 3/10 then .HIGH
  else if confidence > 1/20 then .LOW
  else .MINIMAL

/-- Final calibrated confidence of the realistic detector (line 75):
`has_explicit` is `explicit_score > 0`. -/
def realisticFinalConfidence (markerCount patternMatches codeLines total_lines : ℕ) : ℚ :=
  realisticApplyThresholds (realisticRawConfidence markerCount patternMatches codeLines)
    total_lines (realisticExplicitScore markerCount > 0)

/-- The numeric body of `RealisticCopilotDetector.analyze_content`
(lines 56-100).  `estimated_lines` is line 81:
`int(total_lines * confidence) if confidence > 0.02 else 0`. -/
def realisticAnalyzeNum (markerCount patternMatches codeLines total_lines : ℕ)
    (language : String) : AnalysisResult :=
  { confidence_score := realisticFinalConfidence markerCount patternMatches codeLines total_lines
    estimated_lines :=
      if realisticFinalConfidence markerCount patternMatches codeLines total_lines > 1/50 then
        ⌊(total_lines : ℚ) *
          realisticFinalConfidence markerCount patternMatches codeLines total_lines⌋
      else 0
    total_analyzed_lines := total_lines
    risk_level :=
      realisticRisk (realisticFinalConfidence markerCount patternMatches codeLines total_lines)
        (realisticExplicitScore markerCount > 0)
    language := language }

/-!
Section: Conservative detector (conservative_detector.py)

`analyze_content` (lines 46-107) counts explicit-marker matches
(`_count_explicit_markers`) and signature matches
(`_count_signature_matches`), scores them (lines 64-76), and labels risk via
`_calculate_conservative_risk` (lines 125-135).
-/

/-- Confidence scoring of conservative_detector.py lines 64-76:
`min(explicit_markers * 0.3, 0.9)` when markers are present, plus
`min(signature_matches * 0.1, 0.2)` when signatures are present, capped at
0.95. -/
def conservativeMarkerConfidence (explicitMarkers : ℕ) : ℚ :=
  if explicitMarkers > 0 then min ((explicitMarkers : ℚ) * (3/10)) (9/10) else 0

/-- The signature boost of lines 71-73 added on top of the marker score. -/
def conservativePreCap (explicitMarkers signatureMatches : ℕ) : ℚ :=
  if signatureMatches > 0 then
    conservativeMarkerConfidence explicitMarkers + min ((signatureMatches : ℚ) * (1/10)) (1/5)
  else conservativeMarkerConfidence explicitMarkers

/-- The final cap of line 76. -/
def conservativeConfidence (explicitMarkers signatureMatches : ℕ) : ℚ :=
  min (conservativePreCap explicitMarkers signatureMatches) (19/20)

/-- `_calculate_conservative_risk` (lines 125-135). -/
def conservativeRisk (confidence : ℚ) (explicitMarkers signatures : ℕ) : RiskLevel :=
  if explicitMarkers > 2 ∨ confidence > 4/5 then .HIGH
  else if explicitMarkers > 0 ∨ confidence > 1/2 then .MEDIUM
  else if signatures > 0 ∨ confidence > 1/5 then .LOW
  else .MINIMAL

/-- The numeric body of `ConservativeCopilotDetector.analyze_content`
(lines 58-107).  `estimated_lines` is lines 82-84:
`int(total_lines * confidence_score * 0.5)` when confidence exceeds 0.7,
otherwise 0. -/
def conservativeAnalyzeNum (explicitMarkers signatureMatches total_lines : ℕ)
    (language : String) : AnalysisResult :=
  { confidence_score := conservativeConfidence explicitMarkers signatureMatches
    estimated_lines :=
      if conservativeConfidence explicitMarkers signatureMatches > 7/10 then
        ⌊(total_lines : ℚ) * conservativeConfidence explicitMarkers signatureMatches * (1/2)⌋
      else 0
    total_analyzed_lines := total_lines
    risk_level :=
      conservativeRisk (conservativeConfidence explicitMarkers signatureMatches)
        explicitMarkers signatureMatches
    language := language }

/-!
Section: Metrics calculator (metrics_calculator.py)

`MetricsCalculator.calculate_repository_summary` (lines 16-57) is a pure
reduction over the per-file result dictionaries.  Python's `round(x, n)`
rounds half to even; the constants appearing in the claims are never exact
ties, where binary floating point would additionally perturb the tie.
-/

/-- Round half to even at integer precision, as Python's builtin `round`. -/
def roundHalfEven (x : ℚ) : ℤ :=
  let f := ⌊x⌋
  let r := x - f
  if r < 1/2 then f
  else if r > 1/2 then f + 1
  else if f % 2 = 0 then f else f + 1

/-- Python `round(x, 2)`. -/
def round2 (x : ℚ) : ℚ :=
  ((roundHalfEven (x * 100) : ℚ)) / 100

/-- Python `round(x, 3)`. -/
def round3 (x : ℚ) : ℚ :=
  ((roundHalfEven (x * 1000) : ℚ)) / 1000

/-- The per-file fields consumed by `calculate_repository_summary`
(lines 21-43): `total_lines`, `code_lines`, `estimated_copilot_lines`,
`estimated_human_lines`, `copilot_confidence`. -/
structure FileResult where
  total_lines : ℕ
  code_lines : ℕ
  estimated_copilot_lines : ℕ
  estimated_human_lines : ℕ
  copilot_confidence : ℚ
deriving DecidableEq, Repr

/-- `_calculate_distribution_stats` output (lines 208-221). -/
structure DistributionStats where
  min : ℚ
  max : ℚ
  mean : ℚ
  median : ℚ
deriving DecidableEq, Repr

/-- `_calculate_distribution_stats` (lines 208-221): min, max, mean and
median of the sorted values; all zero for an empty list. -/
def calculateDistributionStats (values : List ℚ) : DistributionStats :=
  if values.isEmpty then ⟨0, 0, 0, 0⟩
  else
    let sorted := values.mergeSort (· ≤ ·)
    let n := sorted.length
    { min := sorted.head!
      max := sorted.getLast!
      mean := sorted.sum / n
      median :=
        if n % 2 = 1 then sorted.get! (n / 2)
        else (sorted.get! (n / 2 - 1) + sorted.get! (n / 2)) / 2 }

/-- The repository summary returned by `calculate_repository_summary`
(lines 45-57). -/
structure RepositorySummary where
  total_files : ℕ
  total_lines : ℕ
  total_code_lines : ℕ
  copilot_lines : ℕ
  human_lines : ℕ
  copilot_percentage : ℚ
  human_percentage : ℚ
  average_confidence : ℚ
  high_confidence_files : ℕ
  high_confidence_percentage : ℚ
  file_size_stats : DistributionStats
deriving DecidableEq, Repr

/-- `_create_empty_summary` (lines 285-299). -/
def emptySummary : RepositorySummary :=
  { total_files := 0
    total_lines := 0
    total_code_lines := 0
    copilot_lines := 0
    human_lines := 0
    copilot_percentage := 0
    human_percentage := 0
    average_confidence := 0
    high_confidence_files := 0
    high_confidence_percentage := 0
    file_size_stats := ⟨0, 0, 0, 0⟩ }

/-- Sum of `code_lines` over the collection. -/
def totalCodeLines (file_results : List FileResult) : ℕ :=
  (file_results.map (·.code_lines)).sum

/-- Sum of `estimated_copilot_lines` over the collection. -/
def totalCopilotLines (file_results : List FileResult) : ℕ :=
  (file_results.map (·.estimated_copilot_lines)).sum

/-- `MetricsCalculator.calculate_repository_summary` (lines 16-57).  The
Python argument is a dict keyed by file path; only its `.values()` are read,
embedded here as a list.  Percentages guard division by zero by returning 0
and are rounded to 2 decimal places; the average confidence is rounded to 3. -/
def calculateRepositorySummary (file_results : List FileResult) : RepositorySummary :=
  if file_results.isEmpty then emptySummary
  else
    let total_files := file_results.length
    let total_lines := (file_results.map (·.total_lines)).sum
    let total_code_lines := totalCodeLines file_results
    let total_copilot_lines := totalCopilotLines file_results
    let total_human_lines := (file_results.map (·.estimated_human_lines)).sum
    let copilot_percentage : ℚ :=
      if total_code_lines > 0 then (total_copilot_lines : ℚ) / total_code_lines * 100 else 0
    let human_percentage : ℚ :=
      if total_code_lines > 0 then (total_human_lines : ℚ) / total_code_lines * 100 else 0
    let confidences := file_results.map (·.copilot_confidence)
    let avg_confidence := if confidences.isEmpty then 0 else confidences.sum / confidences.length
    let high_confidence_files :=
      (file_results.filter (fun f => f.copilot_confidence > 7/10)).length
    { total_files := total_files
      total_lines := total_lines
      total_code_lines := total_code_lines
      copilot_lines := total_copilot_lines
      human_lines := total_human_lines
      copilot_percentage := round2 copilot_percentage
      human_percentage := round2 human_percentage
      average_confidence := round3 avg_confidence
      high_confidence_files := high_confidence_files
      high_confidence_percentage :=
        if total_files > 0 then round2 ((high_confidence_files : ℚ) / total_files * 100) else 0
      file_size_stats :=
        calculateDistributionStats (file_results.map (fun f => ((f.code_lines : ℚ)))) }

/-!
Section: Indentation-consistency feature (balanced_detector.py lines 299-315)
-/

/-- Casts indent widths to rationals for the statistics helpers. -/
def natsToRats (l : List ℕ) : List ℚ :=
  l.map Nat.cast

/-- Python `statistics.variance`: the sample variance with denominator
`n - 1` about the sample mean.  Callers guard `n > 1`. -/
def sampleVariance (l : List ℚ) : ℚ :=
  ((l.map (fun x => (x - l.sum / (l.length : ℚ)) ^ 2)).sum) / ((l.length : ℚ) - 1)

/-- `sorted(set(indentations))`: the distinct indent widths in increasing
order. -/
def sortedUniqueIndents (indentations : List ℕ) : List ℕ :=
  (indentations.dedup).mergeSort (· ≤ ·)

/-- The consecutive differences of the sorted unique indent levels
(line 307). -/
def indentSteps (indentations : List ℕ) : List ℕ :=
  let u := sortedUniqueIndents indentations
  (u.zip u.tail).map (fun p => p.2 - p.1)

/-- `_calculate_indentation_consistency` (lines 299-315): 1.0 for at most
one sample; 1.0 when there are at least two distinct indent levels and all
consecutive steps between the sorted unique levels are equal; otherwise
`max(0.0, 1.0 - variance / (max_indent + 1))`. -/
def indentationConsistency (indentations : List ℕ) : ℚ :=
  if indentations.length ≤ 1 then 1
  else if (sortedUniqueIndents indentations).length > 1 ∧
      (indentSteps indentations).dedup.length = 1 then 1
  else
    max 0 (1 - sampleVariance (natsToRats indentations) /
      (((indentations.foldr Nat.max 0 : ℕ) : ℚ) + 1))
/-- The calibrated balanced confidence is nonnegative. -/
lemma balancedThresholds_nonneg (c : ℚ) (t : ℕ) :
    0 ≤ balancedApplyRealisticThresholds c t := by
  unfold balancedApplyRealisticThresholds
  exact le_min (le_max_right _ _) (by norm_num)

/-- The calibrated balanced confidence is at most 0.75. -/
lemma balancedThresholds_le (c : ℚ) (t : ℕ) :
    balancedApplyRealisticThresholds c t ≤ 3/4 := min_le_right _ _

/-- Bounds for the balanced numeric result. -/
lemma balancedAnalyzeNum_bounds (s : BalancedScores) (t : ℕ) (l : String) :
    0 ≤ (balancedAnalyzeNum s t l).confidence_score ∧
    (balancedAnalyzeNum s t l).confidence_score ≤ 3/4 ∧
    0 ≤ (balancedAnalyzeNum s t l).estimated_lines ∧
    (balancedAnalyzeNum s t l).estimated_lines ≤ (t : ℤ) := by
  have h0 : 0 ≤ balancedFinalConfidence s t := balancedThresholds_nonneg _ _
  have h1 : balancedFinalConfidence s t ≤ 3/4 := balancedThresholds_le _ _
  refine ⟨h0, h1, ?_, ?_⟩
  · simp only [balancedAnalyzeNum]
    split_ifs
    · exact Int.floor_nonneg.mpr (mul_nonneg (Nat.cast_nonneg t) h0)
    · exact le_refl 0
  · simp only [balancedAnalyzeNum]
    split_ifs
    · calc ⌊(t : ℚ) * balancedFinalConfidence s t⌋
          ≤ ⌊((t : ℕ) : ℚ)⌋ := by
            apply Int.floor_le_floor
            exact mul_le_of_le_one_right (Nat.cast_nonneg t) (by linarith)
        _ = (t : ℤ) := Int.floor_natCast t
    · exact Int.ofNat_nonneg t

/-- The explicit-marker score is nonnegative. -/
lemma realisticExplicitScore_nonneg (m : ℕ) : 0 ≤ realisticExplicitScore m :=
  le_min (mul_nonneg (Nat.cast_nonneg m) (by norm_num)) (by norm_num)

/-- The explicit-marker score is at most 1. -/
lemma realisticExplicitScore_le (m : ℕ) : realisticExplicitScore m ≤ 1 :=
  min_le_right _ _

/-- No markers, no explicit score. -/
lemma realisticExplicitScore_zero : realisticExplicitScore 0 = 0 := by
  norm_num [realisticExplicitScore]

/-- At least one marker puts the explicit score at or above 0.3. -/
lemma realisticExplicitScore_ge {m : ℕ} (h : m ≠ 0) : 3/10 ≤ realisticExplicitScore m := by
  unfold realisticExplicitScore
  refine le_min ?_ (by norm_num)
  have h1 : (1 : ℚ) ≤ (m : ℚ) := by exact_mod_cast Nat.one_le_iff_ne_zero.mpr h
  linarith

/-- The subtle-pattern score is nonnegative. -/
lemma realisticSubtleScore_nonneg (p cl : ℕ) : 0 ≤ realisticSubtleScore p cl := by
  unfold realisticSubtleScore
  split_ifs
  · exact le_refl 0
  · refine mul_nonneg (le_min ?_ (by norm_num)) (by norm_num)
    exact div_nonneg (Nat.cast_nonneg p) (div_nonneg (Nat.cast_nonneg cl) (by norm_num))

/-- The subtle-pattern score is at most 0.1. -/
lemma realisticSubtleScore_le (p cl : ℕ) : realisticSubtleScore p cl ≤ 1/10 := by
  unfold realisticSubtleScore
  split_ifs
  · norm_num
  · calc (min ((p : ℚ) / ((cl : ℚ) / 20)) (1/2)) * (1/5)
        ≤ (1/2) * (1/5) := mul_le_mul_of_nonneg_right (min_le_right _ _) (by norm_num)
      _ ≤ 1/10 := by norm_num

/-- With no explicit markers the raw confidence is the subtle contribution. -/
lemma realisticRaw_of_zero (p cl : ℕ) :
    realisticRawConfidence 0 p cl = realisticSubtleScore p cl * (1/10) := by
  unfold realisticRawConfidence realisticSubtleUsed
  rw [realisticExplicitScore_zero]
  norm_num

/-- With at least one explicit marker the raw confidence is 0.8 times the
explicit score. -/
lemma realisticRaw_of_pos {m : ℕ} (h : m ≠ 0) (p cl : ℕ) :
    realisticRawConfidence m p cl = realisticExplicitScore m * (4/5) := by
  have he : realisticExplicitScore m ≠ 0 := by
    have := realisticExplicitScore_ge h
    intro h0
    rw [h0] at this
    norm_num at this
  unfold realisticRawConfidence realisticSubtleUsed
  rw [if_neg he]
  ring

/-- Dampening multiplies by a factor between 0 and 1. -/
lemma realisticDampened_bounds {c : ℚ} (h0 : 0 ≤ c) (t : ℕ) :
    0 ≤ realisticDampened c t ∧ realisticDampened c t ≤ c := by
  unfold realisticDampened
  split_ifs <;> constructor <;> nlinarith

/-- A tiny nonnegative confidence dies below the 0.02 noise floor. -/
lemma realisticScaled_small {c : ℚ} (h0 : 0 ≤ c) (h1 : c ≤ 1/100) (t : ℕ) :
    realisticScaled c t < 1/50 := by
  obtain ⟨hd0, hd1⟩ := realisticDampened_bounds h0 t
  unfold realisticScaled
  split_ifs <;> linarith

/-- Without explicit markers the realistic detector's final confidence is 0:
the subtle contribution is at most 0.01, below the 0.02 noise floor. -/
lemma realisticFinal_zero (p cl t : ℕ) : realisticFinalConfidence 0 p cl t = 0 := by
  have hs0 := realisticSubtleScore_nonneg p cl
  have hs1 := realisticSubtleScore_le p cl
  have hraw := realisticRaw_of_zero p cl
  have h0 : 0 ≤ realisticRawConfidence 0 p cl := by rw [hraw]; nlinarith
  have h1 : realisticRawConfidence 0 p cl ≤ 1/100 := by rw [hraw]; nlinarith
  have hsc := realisticScaled_small h0 h1 t
  unfold realisticFinalConfidence realisticApplyThresholds
  rw [if_neg, if_pos hsc]
  rw [realisticExplicitScore_zero]
  norm_num

/-- With explicit markers the final confidence equals the raw confidence
(the 0.95 cap never binds since the raw value is at most 0.8) and lies in
[0.24, 0.8]. -/
lemma realisticFinal_of_pos {m : ℕ} (h : m ≠ 0) (p cl t : ℕ) :
    realisticFinalConfidence m p cl t = realisticExplicitScore m * (4/5) ∧
    6/25 ≤ realisticFinalConfidence m p cl t ∧
    realisticFinalConfidence m p cl t ≤ 4/5 := by
  have he1 := realisticExplicitScore_ge h
  have he2 := realisticExplicitScore_le m
  have hexp : realisticExplicitScore m > 0 := by linarith
  have hraw := realisticRaw_of_pos h p cl
  have hfc : realisticFinalConfidence m p cl t = realisticExplicitScore m * (4/5) := by
    unfold realisticFinalConfidence realisticApplyThresholds
    rw [if_pos hexp, hraw, min_eq_left (by linarith)]
  exact ⟨hfc, by rw [hfc]; linarith, by rw [hfc]; linarith⟩

/-- Rank never exceeds 4. -/
lemma RiskLevel.rank_le (r : RiskLevel) : r.rank ≤ 4 := by
  cases r <;> simp [RiskLevel.rank]

/-- Risk-rank thresholds of `_calculate_risk_level` when an explicit marker
is present and the confidence is at least 0.24. -/
lemma realisticRisk_rank_of_exp {P : Prop} [Decidable P] (hP : P) {c : ℚ}
    (hge : 6/25 ≤ c) :
    ((1 ≤ (realisticRisk c P).rank ↔ 1/20 < c) ∧
     (2 ≤ (realisticRisk c P).rank ↔ 3/10 < c) ∧
     (3 ≤ (realisticRisk c P).rank ↔ 3/10 < c) ∧
     (4 ≤ (realisticRisk c P).rank ↔ 7/10 < c)) := by
  unfold realisticRisk
  by_cases h7 : 7/10 < c
  · rw [if_pos ⟨hP, h7⟩]
    exact ⟨⟨fun _ => by linarith, fun _ => by norm_num [RiskLevel.rank]⟩,
           ⟨fun _ => by linarith, fun _ => by norm_num [RiskLevel.rank]⟩,
           ⟨fun _ => by linarith, fun _ => by norm_num [RiskLevel.rank]⟩,
           ⟨fun _ => h7, fun _ => by norm_num [RiskLevel.rank]⟩⟩
  · by_cases h3 : 3/10 < c
    · rw [if_neg (fun hc => h7 hc.2), if_pos h3]
      exact ⟨⟨fun _ => by linarith, fun _ => by norm_num [RiskLevel.rank]⟩,
             ⟨fun _ => h3, fun _ => by norm_num [RiskLevel.rank]⟩,
             ⟨fun _ => h3, fun _ => by norm_num [RiskLevel.rank]⟩,
             ⟨fun hh => absurd hh (by norm_num [RiskLevel.rank]), fun hc => absurd hc h7⟩⟩
    · rw [if_neg (fun hc => h7 hc.2), if_neg h3, if_pos (by linarith : c > 1/20)]
      exact ⟨⟨fun _ => by linarith, fun _ => by norm_num [RiskLevel.rank]⟩,
             ⟨fun hh => absurd hh (by norm_num [RiskLevel.rank]), fun hc => absurd hc h3⟩,
             ⟨fun hh => absurd hh (by norm_num [RiskLevel.rank]), fun hc => absurd hc h3⟩,
             ⟨fun hh => absurd hh (by norm_num [RiskLevel.rank]), fun hc => absurd hc h7⟩⟩

/-- Realistic risk-rank characterizations over reachable results: rank at
least 1/2/3/4 corresponds exactly to confidence above 0.05 / 0.3 / 0.3 /
0.7 (there is no rank-2 label in this variant). -/
lemma realisticRank_iff (m p cl t : ℕ) (l : String) :
    ((1 ≤ ((realisticAnalyzeNum m p cl t l).risk_level).rank ↔
      1/20 < (realisticAnalyzeNum m p cl t l).confidence_score) ∧
     (2 ≤ ((realisticAnalyzeNum m p cl t l).risk_level).rank ↔
      3/10 < (realisticAnalyzeNum m p cl t l).confidence_score) ∧
     (3 ≤ ((realisticAnalyzeNum m p cl t l).risk_level).rank ↔
      3/10 < (realisticAnalyzeNum m p cl t l).confidence_score) ∧
     (4 ≤ ((realisticAnalyzeNum m p cl t l).risk_level).rank ↔
      7/10 < (realisticAnalyzeNum m p cl t l).confidence_score)) := by
  simp only [realisticAnalyzeNum]
  by_cases hm : m = 0
  · subst hm
    rw [realisticFinal_zero]
    have hexp : ¬ (realisticExplicitScore 0 > 0) := by
      rw [realisticExplicitScore_zero]; norm_num
    unfold realisticRisk
    rw [if_neg (by tauto), if_neg (by norm_num), if_neg (by norm_num)]
    norm_num [RiskLevel.rank]
  · obtain ⟨-, hge, -⟩ := realisticFinal_of_pos hm p cl t
    have hexp : realisticExplicitScore m > 0 := by
      have := realisticExplicitScore_ge hm; linarith
    exact realisticRisk_rank_of_exp hexp hge

/-- The realistic risk label is monotone in the final confidence across all
reachable results. -/
lemma realisticRank_mono (m1 p1 cl1 t1 : ℕ) (l1 : String) (m2 p2 cl2 t2 : ℕ)
    (l2 : String)
    (h : (realisticAnalyzeNum m1 p1 cl1 t1 l1).confidence_score ≤
         (realisticAnalyzeNum m2 p2 cl2 t2 l2).confidence_score) :
    ((realisticAnalyzeNum m1 p1 cl1 t1 l1).risk_level).rank ≤
    ((realisticAnalyzeNum m2 p2 cl2 t2 l2).risk_level).rank := by
  obtain ⟨i1a, i1b, i1c, i1d⟩ := realisticRank_iff m1 p1 cl1 t1 l1
  obtain ⟨i2a, i2b, i2c, i2d⟩ := realisticRank_iff m2 p2 cl2 t2 l2
  have hle4 := RiskLevel.rank_le ((realisticAnalyzeNum m1 p1 cl1 t1 l1).risk_level)
  by_cases h4 : 4 ≤ ((realisticAnalyzeNum m1 p1 cl1 t1 l1).risk_level).rank
  · have := i2d.mpr (lt_of_lt_of_le (i1d.mp h4) h)
    omega
  · by_cases h3 : 3 ≤ ((realisticAnalyzeNum m1 p1 cl1 t1 l1).risk_level).rank
    · have := i2c.mpr (lt_of_lt_of_le (i1c.mp h3) h)
      omega
    · by_cases h1 : 1 ≤ ((realisticAnalyzeNum m1 p1 cl1 t1 l1).risk_level).rank
      · have h2' : ¬ 2 ≤ ((realisticAnalyzeNum m1 p1 cl1 t1 l1).risk_level).rank :=
          fun hc => h3 (by rw [i1c]; exact i1b.mp hc)
        have := i2a.mpr (lt_of_lt_of_le (i1a.mp h1) h)
        omega
      · omega

/-- The conservative confidence is nonnegative. -/
lemma conservativeMarker_nonneg (m : ℕ) : 0 ≤ conservativeMarkerConfidence m := by
  unfold conservativeMarkerConfidence
  split_ifs
  · exact le_min (mul_nonneg (Nat.cast_nonneg m) (by norm_num)) (by norm_num)
  · exact le_refl 0

/-- The conservative confidence is nonnegative. -/
lemma conservativeConfidence_nonneg (m s : ℕ) : 0 ≤ conservativeConfidence m s := by
  have hm := conservativeMarker_nonneg m
  unfold conservativeConfidence conservativePreCap
  refine le_min ?_ (by norm_num)
  split_ifs with hs
  · have : (0:ℚ) ≤ min ((s : ℚ) * (1/10)) (1/5) :=
      le_min (mul_nonneg (Nat.cast_nonneg s) (by norm_num)) (by norm_num)
    linarith
  · exact hm

/-- The conservative confidence never exceeds 0.95. -/
lemma conservativeConfidence_le (m s : ℕ) : conservativeConfidence m s ≤ 19/20 :=
  min_le_right _ _

/-- With no explicit markers there is no marker contribution. -/
lemma conservativeMarker_zero : conservativeMarkerConfidence 0 = 0 := by
  unfold conservativeMarkerConfidence
  rw [if_neg (by omega)]

/-- With no explicit markers the conservative confidence is at most 0.2. -/
lemma conservativeConfidence_le_of_m0 (s : ℕ) : conservativeConfidence 0 s ≤ 1/5 := by
  unfold conservativeConfidence conservativePreCap
  rw [conservativeMarker_zero]
  refine le_trans (min_le_left _ _) ?_
  split_ifs
  · have : min ((s : ℚ) * (1/10)) (1/5) ≤ 1/5 := min_le_right _ _
    linarith
  · norm_num

/-- With no markers and no signatures the conservative confidence is 0. -/
lemma conservativeConfidence_zero : conservativeConfidence 0 0 = 0 := by
  norm_num [conservativeConfidence, conservativePreCap, conservativeMarkerConfidence]

/-- At least one explicit marker puts the conservative confidence at or
above 0.3. -/
lemma conservativeConfidence_ge_of_m_pos {m : ℕ} (h : 0 < m) (s : ℕ) :
    3/10 ≤ conservativeConfidence m s := by
  have h1 : (1 : ℚ) ≤ (m : ℚ) := by exact_mod_cast h
  have hm : 3/10 ≤ conservativeMarkerConfidence m := by
    unfold conservativeMarkerConfidence
    rw [if_pos h]
    exact le_min (by linarith) (by norm_num)
  unfold conservativeConfidence conservativePreCap
  refine le_min ?_ (by norm_num)
  split_ifs with hs
  · have : (0:ℚ) ≤ min ((s : ℚ) * (1/10)) (1/5) :=
      le_min (mul_nonneg (Nat.cast_nonneg s) (by norm_num)) (by norm_num)
    linarith
  · exact hm

/-- More than two explicit markers put the conservative confidence at or
above 0.9. -/
lemma conservativeConfidence_ge_of_m_gt2 {m : ℕ} (h : 2 < m) (s : ℕ) :
    9/10 ≤ conservativeConfidence m s := by
  have h1 : (3 : ℚ) ≤ (m : ℚ) := by exact_mod_cast h
  have hm : 9/10 ≤ conservativeMarkerConfidence m := by
    unfold conservativeMarkerConfidence
    rw [if_pos (by omega)]
    exact le_min (by linarith) (by norm_num)
  unfold conservativeConfidence conservativePreCap
  refine le_min ?_ (by norm_num)
  split_ifs with hs
  · have : (0:ℚ) ≤ min ((s : ℚ) * (1/10)) (1/5) :=
      le_min (mul_nonneg (Nat.cast_nonneg s) (by norm_num)) (by norm_num)
    linarith
  · exact hm

/-- At least one signature match puts the conservative confidence at or
above 0.1. -/
lemma conservativeConfidence_ge_of_s_pos (m : ℕ) {s : ℕ} (h : 0 < s) :
    1/10 ≤ conservativeConfidence m s := by
  have h1 : (1 : ℚ) ≤ (s : ℚ) := by exact_mod_cast h
  have hm := conservativeMarker_nonneg m
  unfold conservativeConfidence conservativePreCap
  refine le_min ?_ (by norm_num)
  rw [if_pos h]
  have : (1:ℚ)/10 ≤ min ((s : ℚ) * (1/10)) (1/5) := le_min (by linarith) (by norm_num)
  linarith

/-- The conservative detector never reports VERY HIGH. -/
lemma conservativeRisk_rank_le3 (c : ℚ) (m s : ℕ) :
    (conservativeRisk c m s).rank ≤ 3 := by
  unfold conservativeRisk
  split_ifs <;> norm_num [RiskLevel.rank]

/-- Conservative risk-rank characterizations over reachable results: rank at
least 1/2/3 corresponds exactly to confidence at least 0.1 / at least 0.3 /
above 0.8. -/
lemma conservativeRank_iff (m s t : ℕ) (l : String) :
    ((1 ≤ ((conservativeAnalyzeNum m s t l).risk_level).rank ↔
      1/10 ≤ (conservativeAnalyzeNum m s t l).confidence_score) ∧
     (2 ≤ ((conservativeAnalyzeNum m s t l).risk_level).rank ↔
      3/10 ≤ (conservativeAnalyzeNum m s t l).confidence_score) ∧
     (3 ≤ ((conservativeAnalyzeNum m s t l).risk_level).rank ↔
      4/5 < (conservativeAnalyzeNum m s t l).confidence_score)) := by
  simp only [conservativeAnalyzeNum]
  unfold conservativeRisk
  split_ifs with hA hB hC
  · have hc : 4/5 < conservativeConfidence m s := by
      rcases hA with hm | hc
      · have := conservativeConfidence_ge_of_m_gt2 hm s
        linarith
      · exact hc
    exact ⟨⟨fun _ => by linarith, fun _ => by norm_num [RiskLevel.rank]⟩,
           ⟨fun _ => by linarith, fun _ => by norm_num [RiskLevel.rank]⟩,
           ⟨fun _ => hc, fun _ => by norm_num [RiskLevel.rank]⟩⟩
  · have hc : 3/10 ≤ conservativeConfidence m s := by
      rcases hB with hm | hc
      · exact conservativeConfidence_ge_of_m_pos hm s
      · linarith
    exact ⟨⟨fun _ => by linarith, fun _ => by norm_num [RiskLevel.rank]⟩,
           ⟨fun _ => hc, fun _ => by norm_num [RiskLevel.rank]⟩,
           ⟨fun hh => absurd hh (by norm_num [RiskLevel.rank]),
            fun hc2 => absurd (Or.inr hc2) hA⟩⟩
  · have hm0 : m = 0 := by
      by_contra hm
      exact hB (Or.inl (Nat.pos_of_ne_zero hm))
    have hle : conservativeConfidence m s ≤ 1/5 := by
      rw [hm0]; exact conservativeConfidence_le_of_m0 s
    have hc : 1/10 ≤ conservativeConfidence m s := by
      rcases hC with hs | hc
      · exact conservativeConfidence_ge_of_s_pos m hs
      · linarith
    exact ⟨⟨fun _ => hc, fun _ => by norm_num [RiskLevel.rank]⟩,
           ⟨fun hh => absurd hh (by norm_num [RiskLevel.rank]),
            fun hc2 => absurd (by linarith : (1:ℚ)/2 < conservativeConfidence m s)
              (fun hx => hB (Or.inr hx))⟩,
           ⟨fun hh => absurd hh (by norm_num [RiskLevel.rank]),
            fun hc2 => absurd (Or.inr hc2) hA⟩⟩
  · have hm0 : m = 0 := by
      by_contra hm
      exact hB (Or.inl (Nat.pos_of_ne_zero hm))
    have hs0 : s = 0 := by
      by_contra hs
      exact hC (Or.inl (Nat.pos_of_ne_zero hs))
    have hc0 : conservativeConfidence m s = 0 := by
      rw [hm0, hs0]; exact conservativeConfidence_zero
    exact ⟨⟨fun hh => absurd hh (by norm_num [RiskLevel.rank]),
            fun hc => by rw [hc0] at hc; norm_num at hc⟩,
           ⟨fun hh => absurd hh (by norm_num [RiskLevel.rank]),
            fun hc => by rw [hc0] at hc; norm_num at hc⟩,
           ⟨fun hh => absurd hh (by norm_num [RiskLevel.rank]),
            fun hc => by rw [hc0] at hc; norm_num at hc⟩⟩

/-- The conservative risk label is monotone in the final confidence across
all reachable results. -/
lemma conservativeRank_mono (m1 s1 t1 : ℕ) (l1 : String) (m2 s2 t2 : ℕ) (l2 : String)
    (h : (conservativeAnalyzeNum m1 s1 t1 l1).confidence_score ≤
         (conservativeAnalyzeNum m2 s2 t2 l2).confidence_score) :
    ((conservativeAnalyzeNum m1 s1 t1 l1).risk_level).rank ≤
    ((conservativeAnalyzeNum m2 s2 t2 l2).risk_level).rank := by
  obtain ⟨i1a, i1b, i1c⟩ := conservativeRank_iff m1 s1 t1 l1
  obtain ⟨i2a, i2b, i2c⟩ := conservativeRank_iff m2 s2 t2 l2
  have hle3 : ((conservativeAnalyzeNum m1 s1 t1 l1).risk_level).rank ≤ 3 := by
    simp only [conservativeAnalyzeNum]
    exact conservativeRisk_rank_le3 _ _ _
  by_cases h3 : 3 ≤ ((conservativeAnalyzeNum m1 s1 t1 l1).risk_level).rank
  · have := i2c.mpr (lt_of_lt_of_le (i1c.mp h3) h)
    omega
  · by_cases h2 : 2 ≤ ((conservativeAnalyzeNum m1 s1 t1 l1).risk_level).rank
    · have := i2b.mpr (le_trans (i1b.mp h2) h)
      omega
    · by_cases h1 : 1 ≤ ((conservativeAnalyzeNum m1 s1 t1 l1).risk_level).rank
      · have := i2a.mpr (le_trans (i1a.mp h1) h)
        omega
      · omega

/-- Floor of `t * c` lies between 0 and `t` when `0 ≤ c ≤ 1`. -/
lemma floor_mul_bounds {c : ℚ} (h0 : 0 ≤ c) (h1 : c ≤ 1) (t : ℕ) :
    0 ≤ ⌊(t : ℚ) * c⌋ ∧ ⌊(t : ℚ) * c⌋ ≤ (t : ℤ) := by
  constructor
  · exact Int.floor_nonneg.mpr (mul_nonneg (Nat.cast_nonneg t) h0)
  · calc ⌊(t : ℚ) * c⌋ ≤ ⌊((t : ℕ) : ℚ)⌋ :=
        Int.floor_le_floor (mul_le_of_le_one_right (Nat.cast_nonneg t) h1)
      _ = (t : ℤ) := Int.floor_natCast t

/-- Bounds for the realistic numeric result. -/
lemma realisticAnalyzeNum_bounds (m p cl t : ℕ) (l : String) :
    0 ≤ (realisticAnalyzeNum m p cl t l).confidence_score ∧
    (realisticAnalyzeNum m p cl t l).confidence_score ≤ 1 ∧
    0 ≤ (realisticAnalyzeNum m p cl t l).estimated_lines ∧
    (realisticAnalyzeNum m p cl t l).estimated_lines ≤ (t : ℤ) := by
  have hb : 0 ≤ realisticFinalConfidence m p cl t ∧
      realisticFinalConfidence m p cl t ≤ 1 := by
    by_cases hm : m = 0
    · subst hm
      rw [realisticFinal_zero]
      norm_num
    · obtain ⟨-, hge, hle⟩ := realisticFinal_of_pos hm p cl t
      exact ⟨by linarith, by linarith⟩
  obtain ⟨hf0, hf1⟩ := floor_mul_bounds hb.1 hb.2 t
  simp only [realisticAnalyzeNum]
  refine ⟨hb.1, hb.2, ?_, ?_⟩ <;> split_ifs <;> simp [hf0, hf1]

/-- Bounds for the conservative numeric result. -/
lemma conservativeAnalyzeNum_bounds (m s t : ℕ) (l : String) :
    0 ≤ (conservativeAnalyzeNum m s t l).confidence_score ∧
    (conservativeAnalyzeNum m s t l).confidence_score ≤ 1 ∧
    0 ≤ (conservativeAnalyzeNum m s t l).estimated_lines ∧
    (conservativeAnalyzeNum m s t l).estimated_lines ≤ (t : ℤ) := by
  have h0 := conservativeConfidence_nonneg m s
  have h1 := conservativeConfidence_le m s
  have hhalf0 : 0 ≤ conservativeConfidence m s * (1/2) := by linarith
  have hhalf1 : conservativeConfidence m s * (1/2) ≤ 1 := by linarith
  obtain ⟨hf0, hf1⟩ := floor_mul_bounds hhalf0 hhalf1 t
  have hassoc : (t : ℚ) * conservativeConfidence m s * (1/2) =
      (t : ℚ) * (conservativeConfidence m s * (1/2)) := by ring
  simp only [conservativeAnalyzeNum]
  refine ⟨h0, by linarith, ?_, ?_⟩ <;> rw [hassoc] <;> split_ifs <;>
    first
      | exact hf0
      | exact hf1
      | exact le_refl 0
      | exact Int.ofNat_nonneg t

/-!
Section: Claim theorems
-/

/-- C1: for the balanced, realistic and conservative detector variants
(the variants returning the `confidence_score` / `estimated_lines` /
`total_analyzed_lines` result shape embedded here), every `analyze_content`
result satisfies `0 ≤ confidence ≤ 1` and
`0 ≤ estimatedAiLines ≤ totalLines` where `totalLines` is the
`total_analyzed_lines` field of the same result — for every input text and
extension, i.e. for all pattern-match outcomes. -/
theorem C1_confidence_and_estimated_lines_in_range :
    (∀ (F : BalancedScorers) (content file_extension : String),
      0 ≤ (balancedAnalyzeContent F content file_extension).confidence_score ∧
      (balancedAnalyzeContent F content file_extension).confidence_score ≤ 1 ∧
      0 ≤ (balancedAnalyzeContent F content file_extension).estimated_lines ∧
      (balancedAnalyzeContent F content file_extension).estimated_lines ≤
        ((balancedAnalyzeContent F content file_extension).total_analyzed_lines : ℤ)) ∧
    (∀ (m p cl t : ℕ) (l : String),
      0 ≤ (realisticAnalyzeNum m p cl t l).confidence_score ∧
      (realisticAnalyzeNum m p cl t l).confidence_score ≤ 1 ∧
      0 ≤ (realisticAnalyzeNum m p cl t l).estimated_lines ∧
      (realisticAnalyzeNum m p cl t l).estimated_lines ≤
        ((realisticAnalyzeNum m p cl t l).total_analyzed_lines : ℤ)) ∧
    (∀ (m s t : ℕ) (l : String),
      0 ≤ (conservativeAnalyzeNum m s t l).confidence_score ∧
      (conservativeAnalyzeNum m s t l).confidence_score ≤ 1 ∧
      0 ≤ (conservativeAnalyzeNum m s t l).estimated_lines ∧
      (conservativeAnalyzeNum m s t l).estimated_lines ≤
        ((conservativeAnalyzeNum m s t l).total_analyzed_lines : ℤ)) := by
  refine ⟨?_, ?_, ?_⟩
  · intro F content ext
    unfold balancedAnalyzeContent
    split_ifs
    · simp [emptyAnalysis]
    · simp [emptyAnalysis]
    · obtain ⟨a, b, c, d⟩ := balancedAnalyzeNum_bounds
        ⟨F.strong content, F.moderate content, F.weak content,
         F.consistency content, F.human content⟩
        (nonBlankLines content).length (detectLanguage ext)
      exact ⟨a, le_trans b (by norm_num), c, d⟩
  · intro m p cl t l
    exact realisticAnalyzeNum_bounds m p cl t l
  · intro m s t l
    exact conservativeAnalyzeNum_bounds m s t l

/-- C10: the balanced detector's final calibrated confidence never exceeds
0.75 — the calibration ends with `min(max(confidence, 0.0), 0.75)`, a hard
cap stricter than the documented [0, 1] range. -/
theorem C10_balanced_confidence_capped_at_075 (F : BalancedScorers)
    (content file_extension : String) :
    (balancedAnalyzeContent F content file_extension).confidence_score ≤ 3/4 := by
  unfold balancedAnalyzeContent
  split_ifs
  · norm_num [emptyAnalysis]
  · norm_num [emptyAnalysis]
  · exact balancedThresholds_le _ _

/-- C2: whenever the calibrated confidence reaching the noise-floor
comparison is below the variant's floor (0.05 for balanced, 0.02 for
realistic), the returned confidence is exactly 0.  For the realistic variant
the floor only exists on the no-explicit-marker path, and with an explicit
marker the scaled value provably never drops below 0.02, so the statement
holds unconditionally. -/
theorem C2_confidence_zero_below_noise_floor :
    (∀ (s : BalancedScores) (t : ℕ) (l : String),
      balancedPreFloor (balancedPreThreshold s) t < 1/20 →
      (balancedAnalyzeNum s t l).confidence_score = 0) ∧
    (∀ (m p cl t : ℕ) (l : String),
      realisticScaled (realisticRawConfidence m p cl) t < 1/50 →
      (realisticAnalyzeNum m p cl t l).confidence_score = 0) := by
  constructor
  · intro s t l h
    simp only [balancedAnalyzeNum, balancedFinalConfidence,
      balancedApplyRealisticThresholds, balancedFloored, balancedCompressed]
    rw [if_pos h]
    norm_num
  · intro m p cl t l h
    by_cases hm : m = 0
    · subst hm
      simp only [realisticAnalyzeNum]
      exact realisticFinal_zero p cl t
    · exfalso
      have hraw := realisticRaw_of_pos hm p cl
      have hge := realisticExplicitScore_ge hm
      have hr : 6/25 ≤ realisticRawConfidence m p cl := by rw [hraw]; linarith
      have hbig : 1/50 ≤ realisticScaled (realisticRawConfidence m p cl) t := by
        unfold realisticScaled realisticDampened
        split_ifs <;> first
          | exact le_min (by linarith) (by norm_num)
          | linarith
      linarith

/-- Witness for C2 at concrete inputs. -/
theorem C2_confidence_zero_below_noise_floor_witness :
    (balancedAnalyzeNum ⟨0, 0, 0, 0, 0⟩ 1 "unknown").confidence_score = 0 ∧
    (realisticAnalyzeNum 0 0 0 0 "unknown").confidence_score = 0 :=
  ⟨C2_confidence_zero_below_noise_floor.1 ⟨0, 0, 0, 0, 0⟩ 1 "unknown" (by
      norm_num [balancedPreFloor, balancedScaled, balancedDampened, balancedPreThreshold,
        balancedBaseConfidence, balancedHumanPenalty, max_def]),
   C2_confidence_zero_below_noise_floor.2 0 0 0 0 "unknown" (by
      norm_num [realisticScaled, realisticDampened, realisticRawConfidence,
        realisticExplicitScore, realisticSubtleUsed, realisticSubtleScore, min_def])⟩

/-- C5: for every empty or whitespace-only input text and every extension
the balanced `analyze_content` short-circuits to the well-defined empty
analysis (confidence 0, 0 analyzed lines, MINIMAL risk) before any pattern
matching or arithmetic can run; the embedding is a total function, matching
the source in which every division on this path is guarded, so no exception
is possible. -/
theorem C5_empty_input_returns_empty_analysis (F : BalancedScorers)
    (content file_extension : String)
    (h : (pythonStrip content).isEmpty = true) :
    balancedAnalyzeContent F content file_extension = emptyAnalysis := by
  unfold balancedAnalyzeContent
  rw [if_pos h]

/-- Witness for C5 on a whitespace-only input. -/
theorem C5_empty_input_witness :
    (pythonStrip "  \t\n ").isEmpty = true ∧
    balancedAnalyzeContent zeroScorers "  \t\n " ".py" = emptyAnalysis :=
  ⟨by decide, C5_empty_input_returns_empty_analysis zeroScorers "  \t\n " ".py" (by decide)⟩

/-- C7: `analyze_content` is deterministic — the embedding is a pure
function of the text and extension (the source consults no clock and no
randomness), so identical arguments give identical result structures. -/
theorem C7_analyze_content_deterministic (F : BalancedScorers)
    (content1 ext1 content2 ext2 : String)
    (hc : content1 = content2) (he : ext1 = ext2) :
    balancedAnalyzeContent F content1 ext1 = balancedAnalyzeContent F content2 ext2 := by
  rw [hc, he]

/-- Witness for C7 on a concrete repeated call. -/
theorem C7_analyze_content_deterministic_witness :
    balancedAnalyzeContent zeroScorers "x = 1" ".py" =
      balancedAnalyzeContent zeroScorers "x = 1" ".py" :=
  C7_analyze_content_deterministic zeroScorers "x = 1" ".py" "x = 1" ".py" rfl rfl

/-- C3 is false as stated: the source computes
`int(total_lines * confidence)` — truncation toward zero — not `round`.
Counterexample traced from the source: the two-line input
`"@generated\n@generated"` with extension `".py"` under the realistic
detector.  Only the sixth explicit-marker regex `@generated` matches, twice,
so `marker_count = 2`, `explicit_score = min(2*0.3, 1) = 0.6`, confidence
`0.6*0.8 = 0.48` (subtle patterns are skipped when markers are present,
and `min(0.48, 0.95) = 0.48`); `total_lines = 2` and `code_lines = 2`.
Then `estimated_lines = int(2*0.48) = int(0.96) = 0`, while
`round(2*0.48) = round(0.96) = 1`. -/
theorem C3_counterexample :
    (realisticAnalyzeNum 2 0 2 2 "python").estimated_lines ≠
      roundHalfEven (((realisticAnalyzeNum 2 0 2 2 "python").total_analyzed_lines : ℚ) *
        (realisticAnalyzeNum 2 0 2 2 "python").confidence_score) := by
  norm_num [realisticAnalyzeNum, realisticFinalConfidence, realisticApplyThresholds,
    realisticScaled, realisticDampened, realisticRawConfidence, realisticExplicitScore,
    realisticSubtleUsed, realisticSubtleScore, roundHalfEven, min_def, Int.floor_eq_iff]

/-- C3 amended: for every non-empty input, the estimated AI line count
equals the floor (Python `int()` truncation) of `totalLines * confidence`
whenever the confidence is strictly above the variant's noise floor (0.05
balanced, 0.02 realistic), and equals 0 whenever the confidence is at or
below that floor. -/
theorem C3_estimated_lines_truncated :
    (∀ (s : BalancedScores) (t : ℕ) (l : String),
      ((balancedAnalyzeNum s t l).confidence_score > 1/20 →
        (balancedAnalyzeNum s t l).estimated_lines =
          ⌊((balancedAnalyzeNum s t l).total_analyzed_lines : ℚ) *
            (balancedAnalyzeNum s t l).confidence_score⌋) ∧
      ((balancedAnalyzeNum s t l).confidence_score ≤ 1/20 →
        (balancedAnalyzeNum s t l).estimated_lines = 0)) ∧
    (∀ (m p cl t : ℕ) (l : String),
      ((realisticAnalyzeNum m p cl t l).confidence_score > 1/50 →
        (realisticAnalyzeNum m p cl t l).estimated_lines =
          ⌊((realisticAnalyzeNum m p cl t l).total_analyzed_lines : ℚ) *
            (realisticAnalyzeNum m p cl t l).confidence_score⌋) ∧
      ((realisticAnalyzeNum m p cl t l).confidence_score ≤ 1/50 →
        (realisticAnalyzeNum m p cl t l).estimated_lines = 0)) := by
  constructor
  · intro s t l
    simp only [balancedAnalyzeNum]
    constructor
    · intro h
      rw [if_pos h]
    · intro h
      rw [if_neg (not_lt.mpr h)]
  · intro m p cl t l
    simp only [realisticAnalyzeNum]
    constructor
    · intro h
      rw [if_pos h]
    · intro h
      rw [if_neg (not_lt.mpr h)]

/-- Witness for the amended C3 at concrete inputs on both sides of each
floor. -/
theorem C3_estimated_lines_truncated_witness :
    ((balancedAnalyzeNum ⟨1, 0, 0, 0, 0⟩ 100 "python").estimated_lines =
      ⌊((balancedAnalyzeNum ⟨1, 0, 0, 0, 0⟩ 100 "python").total_analyzed_lines : ℚ) *
        (balancedAnalyzeNum ⟨1, 0, 0, 0, 0⟩ 100 "python").confidence_score⌋) ∧
    ((balancedAnalyzeNum ⟨0, 0, 0, 0, 0⟩ 7 "python").estimated_lines = 0) ∧
    ((realisticAnalyzeNum 1 0 0 10 "python").estimated_lines =
      ⌊((realisticAnalyzeNum 1 0 0 10 "python").total_analyzed_lines : ℚ) *
        (realisticAnalyzeNum 1 0 0 10 "python").confidence_score⌋) ∧
    ((realisticAnalyzeNum 0 0 0 10 "python").estimated_lines = 0) :=
  ⟨(C3_estimated_lines_truncated.1 ⟨1, 0, 0, 0, 0⟩ 100 "python").1 (by
      norm_num [balancedAnalyzeNum, balancedFinalConfidence,
        balancedApplyRealisticThresholds, balancedPreFloor, balancedScaled,
        balancedDampened, balancedFloored, balancedCompressed, balancedPreThreshold,
        balancedBaseConfidence, balancedHumanPenalty, min_def, max_def]),
   (C3_estimated_lines_truncated.1 ⟨0, 0, 0, 0, 0⟩ 7 "python").2 (by
      norm_num [balancedAnalyzeNum, balancedFinalConfidence,
        balancedApplyRealisticThresholds, balancedPreFloor, balancedScaled,
        balancedDampened, balancedFloored, balancedCompressed, balancedPreThreshold,
        balancedBaseConfidence, balancedHumanPenalty, min_def, max_def]),
   (C3_estimated_lines_truncated.2 1 0 0 10 "python").1 (by
      norm_num [realisticAnalyzeNum, realisticFinalConfidence, realisticApplyThresholds,
        realisticScaled, realisticDampened, realisticRawConfidence,
        realisticExplicitScore, realisticSubtleUsed, realisticSubtleScore, min_def]),
   (C3_estimated_lines_truncated.2 0 0 0 10 "python").2 (by
      norm_num [realisticAnalyzeNum, realisticFinalConfidence, realisticApplyThresholds,
        realisticScaled, realisticDampened, realisticRawConfidence,
        realisticExplicitScore, realisticSubtleUsed, realisticSubtleScore, min_def])⟩

/-- C4 is false as stated for the balanced variant: its risk label also
depends on the strong and moderate scores, not on the final confidence
alone.  Counterexample traced from the source.

Input A is a 10-line file, every line at column 0 and no `=` anywhere:
  line 1 is `# AI-generated` (explicit pattern 1), line 2 is
  `# Auto-generated by Copilot tooling` (the `Auto-generated by` pattern),
  lines 3-9 are the docstring `"""` / `Initialize the widget.` / `Args:` /
  `none listed here` / `Returns:` / `nothing at all` / `"""` — matching the
  Args/Returns docstring pattern and the Initialize-style docstring
  pattern — and line 10 is `# Final remark`.
Two explicit markers plus two documentation-style patterns give
strong = (2+2)/6 = 2/3; moderate = weak = 0; consistency =
(1 + 0.5 + 1)/3 = 5/6 (uniform zero indentation, no identifiers so naming
is the neutral 0.5, all three comment bodies capitalized).  The three
letter-initial comments saturate the IGNORECASE human pattern
(matching `#` followed by any letter): 3/(10/30) = 9, capped at 1, so
human = 1 and the penalty (1-0.85)*(-0.15) = -0.0225 applies.
base = (2/3)*0.5 + (5/6)*0.05 = 0.375; after the penalty and the *0.5
small-file dampening the confidence is 141/800 = 0.17625, and
strong > 0.5 forces HIGH.

Input B is a 40-line file, every line at column 0, with no comment and no
`=` anywhere: `from typing import Optional, Union`, then four decorated
definitions `@cached` over `def get_value():`, `def set_limit():`,
`def calculate_total():`, `def process_items():`, four lines
`with open('data.txt') as fh:`, and 27 filler lines `pass`.
Every moderate category saturates against the 40/10 = 4 normalizer
(4 `get_`/`set_`/`calculate_`/`process_` naming matches, 1 typing import
plus 4 decorator-then-def structural matches, 4 with-open modern matches)
so moderate = 1; strong = weak = human = 0 (no comments, no `=`, no
1-to-3-letter `def` name); consistency = (1 + 1 + 0.5)/3 = 5/6
(uniform indentation, 4 snake_case function names, no comments).
base = 1*0.3 + (5/6)*0.05 = 41/120; the *0.7 dampening for 40 lines gives
287/1200 ≈ 0.2392, below the 0.25 scaling trigger, and with
strong = 0 ≤ 0.2 and moderate > 0.5 the label is MEDIUM — a strictly
higher confidence with a strictly lower label than input A. -/
theorem C4_counterexample :
    (balancedAnalyzeNum ⟨2/3, 0, 0, 5/6, 1⟩ 10 "python").risk_level = RiskLevel.HIGH ∧
    (balancedAnalyzeNum ⟨0, 1, 0, 5/6, 0⟩ 40 "python").risk_level = RiskLevel.MEDIUM ∧
    (balancedAnalyzeNum ⟨2/3, 0, 0, 5/6, 1⟩ 10 "python").confidence_score <
      (balancedAnalyzeNum ⟨0, 1, 0, 5/6, 0⟩ 40 "python").confidence_score := by
  norm_num [balancedAnalyzeNum, balancedFinalConfidence, balancedApplyRealisticThresholds,
    balancedPreFloor, balancedScaled, balancedDampened, balancedFloored,
    balancedCompressed, balancedPreThreshold, balancedBaseConfidence,
    balancedHumanPenalty, balancedRisk, min_def, max_def]

/-- C4 amended: for the realistic and conservative variants the risk label
is a monotone function of the final confidence across all reachable
results (so equal confidences receive equal labels); the balanced variant
violates the claim because its label also reads the strong and moderate
scores. -/
theorem C4_risk_monotone_for_realistic_and_conservative :
    (∀ (m1 p1 cl1 t1 : ℕ) (l1 : String) (m2 p2 cl2 t2 : ℕ) (l2 : String),
      (realisticAnalyzeNum m1 p1 cl1 t1 l1).confidence_score ≤
        (realisticAnalyzeNum m2 p2 cl2 t2 l2).confidence_score →
      ((realisticAnalyzeNum m1 p1 cl1 t1 l1).risk_level).rank ≤
        ((realisticAnalyzeNum m2 p2 cl2 t2 l2).risk_level).rank) ∧
    (∀ (m1 s1 t1 : ℕ) (l1 : String) (m2 s2 t2 : ℕ) (l2 : String),
      (conservativeAnalyzeNum m1 s1 t1 l1).confidence_score ≤
        (conservativeAnalyzeNum m2 s2 t2 l2).confidence_score →
      ((conservativeAnalyzeNum m1 s1 t1 l1).risk_level).rank ≤
        ((conservativeAnalyzeNum m2 s2 t2 l2).risk_level).rank) :=
  ⟨fun m1 p1 cl1 t1 l1 m2 p2 cl2 t2 l2 h => realisticRank_mono m1 p1 cl1 t1 l1 m2 p2 cl2 t2 l2 h,
   fun m1 s1 t1 l1 m2 s2 t2 l2 h => conservativeRank_mono m1 s1 t1 l1 m2 s2 t2 l2 h⟩

/-- Witness for the amended C4 at concrete inputs. -/
theorem C4_risk_monotone_witness :
    ((realisticAnalyzeNum 0 0 0 5 "python").risk_level).rank ≤
      ((realisticAnalyzeNum 1 0 0 5 "python").risk_level).rank ∧
    ((conservativeAnalyzeNum 0 1 5 "python").risk_level).rank ≤
      ((conservativeAnalyzeNum 1 0 5 "python").risk_level).rank :=
  ⟨C4_risk_monotone_for_realistic_and_conservative.1 0 0 0 5 "python" 1 0 0 5 "python" (by
      norm_num [realisticAnalyzeNum, realisticFinalConfidence, realisticApplyThresholds,
        realisticScaled, realisticDampened, realisticRawConfidence,
        realisticExplicitScore, realisticSubtleUsed, realisticSubtleScore, min_def]),
   C4_risk_monotone_for_realistic_and_conservative.2 0 1 5 "python" 1 0 5 "python" (by
      norm_num [conservativeAnalyzeNum, conservativeConfidence, conservativePreCap,
        conservativeMarkerConfidence, min_def])⟩

/-- The conservative marker contribution is monotone in the marker count. -/
lemma conservativeMarker_mono {m1 m2 : ℕ} (h : m1 ≤ m2) :
    conservativeMarkerConfidence m1 ≤ conservativeMarkerConfidence m2 := by
  have hc : ((m1 : ℚ)) ≤ (m2 : ℚ) := by exact_mod_cast h
  unfold conservativeMarkerConfidence
  split_ifs with h1 h2
  · exact min_le_min (by linarith) le_rfl
  · exact absurd (lt_of_lt_of_le h1 h) h2
  · exact le_min (mul_nonneg (Nat.cast_nonneg m2) (by norm_num)) (by norm_num)
  · exact le_refl 0

/-- C6 amended: for the conservative detector, whose scoring counts
explicit-marker matches, more marker occurrences (all else fixed) never
decrease the confidence; the balanced detector violates the claim as stated
because its strong-indicator matching is presence-based while its weak- and
moderate-score normalizations divide by the growing line count. -/
theorem C6_conservative_marker_monotone (m1 m2 s t1 t2 : ℕ) (l : String)
    (h : m1 ≤ m2) :
    (conservativeAnalyzeNum m1 s t1 l).confidence_score ≤
    (conservativeAnalyzeNum m2 s t2 l).confidence_score := by
  simp only [conservativeAnalyzeNum]
  have hm := conservativeMarker_mono h
  unfold conservativeConfidence conservativePreCap
  split_ifs
  · exact min_le_min (by linarith) le_rfl
  · exact min_le_min hm le_rfl

/-- Witness for the amended C6. -/
theorem C6_conservative_marker_monotone_witness :
    (conservativeAnalyzeNum 1 0 10 "python").confidence_score ≤
    (conservativeAnalyzeNum 2 0 11 "python").confidence_score :=
  C6_conservative_marker_monotone 1 2 0 10 11 "python" (by norm_num)

/-- C6 is false as stated for the balanced variant.  Counterexample traced
from the source.  Text T has 60 lines, each a column-0 comment with a
capitalized body and no `=` anywhere: line 1 is `# AI-generated` (matching
exactly one explicit strong pattern, so strong = 1/6 — strong matching is
presence-based `re.search`, one hit per pattern regardless of occurrence
count), one `# TODO: Alpha` line and one `# NOTE: Beta` line
(weak = min(2/(60/20), 1) = 2/3), and 57 filler lines
`# Filler comment line`.  There are no moderate matches; all 60
letter-initial comments fire the IGNORECASE human pattern (matching `#`
followed by any letter), giving 60/(60/30) = 30, capped at 1, so human = 1
with penalty (1-0.85)*(-0.15) = -0.0225; consistency = (1 + 0.5 + 1)/3 =
5/6 (uniform zero indentation, no identifiers, all comment bodies
capitalized).  Confidence:
(1/6)*0.5 + (2/3)*0.15 + (5/6)*0.05 - 0.0225 = 81/400 = 0.2025 (no
dampening at 60 lines, no scaling below 0.25).  Appending one more
`# AI-generated` line — an additional occurrence of an already-matched
explicit marker — leaves strong, moderate, consistency and human (still
capped at 1, the penalty unchanged) exactly as before, but dilutes the
weak score to min(2/(61/20), 1) = 40/61, strictly decreasing the
confidence to 109/488 - 9/400 = 4901/24400 ≈ 0.20086. -/
theorem C6_counterexample :
    (balancedAnalyzeNum ⟨1/6, 0, 40/61, 5/6, 1⟩ 61 "python").confidence_score <
      (balancedAnalyzeNum ⟨1/6, 0, 2/3, 5/6, 1⟩ 60 "python").confidence_score := by
  norm_num [balancedAnalyzeNum, balancedFinalConfidence, balancedApplyRealisticThresholds,
    balancedPreFloor, balancedScaled, balancedDampened, balancedFloored,
    balancedCompressed, balancedPreThreshold, balancedBaseConfidence,
    balancedHumanPenalty, min_def, max_def]

/-- C8 is false as stated: `calculate_repository_summary` rounds the
percentage to 2 decimal places (`round(copilot_percentage, 2)`, line 51).
Counterexample: a single file with 3 code lines, 1 of them estimated as
copilot-generated — the exact ratio is 100/3 ≈ 33.333 but the summary holds
33.33. -/
theorem C8_counterexample :
    (calculateRepositorySummary [⟨3, 3, 1, 2, 0⟩]).copilot_percentage ≠
      ((totalCopilotLines [⟨3, 3, 1, 2, 0⟩] : ℚ) /
        (totalCodeLines [⟨3, 3, 1, 2, 0⟩] : ℚ)) * 100 := by
  norm_num [calculateRepositorySummary, totalCodeLines, totalCopilotLines, round2, round3,
    roundHalfEven, Int.floor_eq_iff]

/-- C8 amended: `calculate_repository_summary` returns, as
`copilot_percentage`, the value `(Σ estimated_copilot_lines) /
(Σ code_lines) * 100` rounded to two decimal places, with 0 substituted when
the code-line sum is 0; the empty collection yields the all-zero summary. -/
theorem C8_repository_summary_percentage :
    calculateRepositorySummary [] = emptySummary ∧
    (∀ file_results : List FileResult,
      (calculateRepositorySummary file_results).copilot_percentage =
        round2 (if 0 < totalCodeLines file_results then
          (totalCopilotLines file_results : ℚ) / (totalCodeLines file_results : ℚ) * 100
        else 0)) ∧
    (∀ file_results : List FileResult,
      totalCodeLines file_results = 0 →
      (calculateRepositorySummary file_results).copilot_percentage = 0) := by
  have hempty : calculateRepositorySummary [] = emptySummary := by
    simp [calculateRepositorySummary]
  have hpct : ∀ file_results : List FileResult,
      (calculateRepositorySummary file_results).copilot_percentage =
        round2 (if 0 < totalCodeLines file_results then
          (totalCopilotLines file_results : ℚ) / (totalCodeLines file_results : ℚ) * 100
        else 0) := by
    intro file_results
    cases file_results with
    | nil =>
      rw [hempty]
      norm_num [emptySummary, totalCodeLines, round2, roundHalfEven]
    | cons f fs =>
      simp only [calculateRepositorySummary, List.isEmpty_cons, Bool.false_eq_true,
        if_false]
  refine ⟨hempty, hpct, ?_⟩
  intro file_results h0
  rw [hpct file_results, h0]
  norm_num [round2, roundHalfEven]

/-- Witness for the amended C8 at a concrete collection with zero code
lines. -/
theorem C8_repository_summary_percentage_witness :
    (calculateRepositorySummary [⟨5, 0, 0, 0, 1⟩]).copilot_percentage = 0 :=
  C8_repository_summary_percentage.2.2 [⟨5, 0, 0, 0, 1⟩] (by
    norm_num [totalCodeLines])

/-- A list whose members all equal `c` sums to `length * c`. -/
lemma list_sum_const {l : List ℚ} {c : ℚ} (h : ∀ x ∈ l, x = c) :
    l.sum = (l.length : ℚ) * c := by
  induction l with
  | nil => simp
  | cons a t ih =>
    have ha : a = c := h a (by simp)
    have ht : ∀ x ∈ t, x = c := fun x hx => h x (by simp [hx])
    rw [List.sum_cons, ih ht, ha, List.length_cons]
    push_cast
    ring

/-- The sample variance of a constant list is 0. -/
lemma sampleVariance_const {l : List ℚ} {c : ℚ} (h : ∀ x ∈ l, x = c) :
    sampleVariance l = 0 := by
  unfold sampleVariance
  rcases eq_or_ne l [] with rfl | hne
  · simp
  · have hn : ((l.length : ℚ)) ≠ 0 := by
      have := List.length_pos.mpr hne
      exact_mod_cast Nat.pos_iff_ne_zero.mp this
    have hmean : l.sum / (l.length : ℚ) = c := by
      rw [list_sum_const h]
      field_simp
    have hz : (l.map fun x => (x - l.sum / (l.length : ℚ)) ^ 2).sum = 0 := by
      apply List.sum_eq_zero
      intro y hy
      obtain ⟨x, hx, rfl⟩ := List.mem_map.mp hy
      rw [hmean, h x hx]
      ring
    rw [hz]
    simp

/-- The sample variance of a list with at least two members is nonnegative. -/
lemma sampleVariance_nonneg {l : List ℚ} (h : 2 ≤ l.length) :
    0 ≤ sampleVariance l := by
  unfold sampleVariance
  apply div_nonneg
  · apply List.sum_nonneg
    intro y hy
    obtain ⟨x, hx, rfl⟩ := List.mem_map.mp hy
    positivity
  · have h2 : (2 : ℚ) ≤ (l.length : ℚ) := by exact_mod_cast h
    linarith

/-- A list with at most one distinct member is constant. -/
lemma all_eq_of_dedup_le_one {l : List ℕ} (h : l.dedup.length ≤ 1) :
    ∀ x ∈ l, ∀ y ∈ l, x = y := by
  intro x hx y hy
  have hx' : x ∈ l.dedup := List.mem_dedup.mpr hx
  have hy' : y ∈ l.dedup := List.mem_dedup.mpr hy
  rcases hd : l.dedup with - | ⟨c, rest⟩
  · rw [hd] at hx'
    exact absurd hx' (List.not_mem_nil x)
  · rw [hd, List.length_cons] at h
    have hrest : rest = [] := List.eq_nil_of_length_eq_zero (by omega)
    rw [hd, hrest] at hx' hy'
    simp only [List.mem_singleton] at hx' hy'
    rw [hx', hy']

/-- C9: the indentation-consistency feature returns 1 when the non-blank
lines carry at most one distinct indent width or when all consecutive
differences between the sorted unique indent levels agree, and otherwise
returns `1 - variance(indents)/(max(indent)+1)` clamped to [0, 1]
(`variance` being Python's `statistics.variance`, the sample variance). -/
theorem C9_indentation_consistency_formula (indentations : List ℕ) :
    ((indentations.dedup.length ≤ 1 ∨
        ((sortedUniqueIndents indentations).length > 1 ∧
         (indentSteps indentations).dedup.length = 1)) →
      indentationConsistency indentations = 1) ∧
    (¬ (indentations.dedup.length ≤ 1 ∨
        ((sortedUniqueIndents indentations).length > 1 ∧
         (indentSteps indentations).dedup.length = 1)) →
      indentationConsistency indentations =
        max 0 (min 1 (1 - sampleVariance (natsToRats indentations) /
          (((indentations.foldr Nat.max 0 : ℕ) : ℚ) + 1)))) := by
  constructor
  · intro hC
    unfold indentationConsistency
    by_cases hlen : indentations.length ≤ 1
    · rw [if_pos hlen]
    · rw [if_neg hlen]
      rcases hC with hd | hsteps
      · have hu : ¬ ((sortedUniqueIndents indentations).length > 1 ∧
            (indentSteps indentations).dedup.length = 1) := by
          rintro ⟨h1, -⟩
          rw [sortedUniqueIndents, List.length_mergeSort] at h1
          omega
        rw [if_neg hu]
        rcases indentations with - | ⟨a, rest⟩
        · simp at hlen
        · have hall := all_eq_of_dedup_le_one hd
          have hconst : ∀ x ∈ natsToRats (a :: rest), x = (a : ℚ) := by
            unfold natsToRats
            intro y hy
            obtain ⟨x, hx, rfl⟩ := List.mem_map.mp hy
            exact_mod_cast hall x hx a (by simp)
          rw [sampleVariance_const hconst]
          norm_num
      · rw [if_pos hsteps]
  · intro hC
    rw [not_or] at hC
    obtain ⟨hd, hsteps⟩ := hC
    have hd2 : 2 ≤ indentations.dedup.length := by omega
    have hlen2 : 2 ≤ indentations.length :=
      le_trans hd2 (List.Sublist.length_le (List.dedup_sublist _))
    unfold indentationConsistency
    rw [if_neg (by omega), if_neg hsteps]
    have hv : 0 ≤ sampleVariance (natsToRats indentations) :=
      sampleVariance_nonneg (by simpa [natsToRats] using hlen2)
    have hm1 : (0 : ℚ) < ((indentations.foldr Nat.max 0 : ℕ) : ℚ) + 1 := by positivity
    have hdiv : 0 ≤ sampleVariance (natsToRats indentations) /
        (((indentations.foldr Nat.max 0 : ℕ) : ℚ) + 1) := div_nonneg hv (le_of_lt hm1)
    rw [min_eq_right (by linarith)]

/-- Witness for C9: one list with equal steps between its three indent
levels, one without. -/
theorem C9_indentation_consistency_witness :
    indentationConsistency [0, 4, 8] = 1 ∧
    indentationConsistency [0, 1, 3] =
      max 0 (min 1 (1 - sampleVariance (natsToRats [0, 1, 3]) /
        (((([0, 1, 3] : List ℕ).foldr Nat.max 0 : ℕ) : ℚ) + 1))) :=
  ⟨(C9_indentation_consistency_formula [0, 4, 8]).1 (by
      norm_num [sortedUniqueIndents, indentSteps, List.dedup, List.mergeSort]),
   (C9_indentation_consistency_formula [0, 1, 3]).2 (by
      norm_num [sortedUniqueIndents, indentSteps, List.dedup, List.mergeSort])⟩
